import Mathlib

/-
Shallow embedding of the basin control-plane service (Rust).  Pure data and
decision logic are translated directly from the source files; every remote
call (S3, Glue, Redis, SQS, HTTP) is represented by an explicit outcome
parameter so the surrounding control flow can be verified as written.
-/

deriving instance DecidableEq for Except

namespace Basin

/-- src/fluid/descriptor/database.rs: `DatabaseDescriptor`. -/
structure DatabaseDescriptor where
  id : String
  name : String
  summary : String
  deriving DecidableEq

/-- src/fluid/descriptor/table.rs: `TableColumnType` (the `Complex` variant
exists in the schema to exercise an unsupported type). -/
inductive TableColumnType where
  | int
  | long
  | float
  | double
  | boolean
  | string
  | date
  | timestamp
  | complex
  deriving DecidableEq

/-- src/fluid/descriptor/table.rs: `TableColumnCodec` (field `type` renamed
`kind` by serde in the source as well). -/
structure TableColumnCodec where
  kind : TableColumnType
  deriving DecidableEq

/-- src/fluid/descriptor/table.rs: `TableColumnAttribute`. -/
structure TableColumnAttribute where
  id : String
  name : String
  summary : String
  codec : TableColumnCodec
  nullable : Bool
  deriving DecidableEq

/-- src/fluid/descriptor/table.rs: `TableDescriptor`. -/
structure TableDescriptor where
  id : String
  name : String
  summary : String
  columns : List TableColumnAttribute
  database : String
  deriving DecidableEq

/-- src/fluid/descriptor/flow.rs: `FlowCronCondition`. -/
structure FlowCronCondition where
  schedule : String
  deriving DecidableEq

/-- src/fluid/descriptor/flow.rs: `FlowUpstreamCondition`. -/
structure FlowUpstreamCondition where
  upstream : String
  deriving DecidableEq

/-- src/fluid/descriptor/flow.rs: `FlowCondition`. -/
inductive FlowCondition where
  | cron (c : FlowCronCondition)
  | upstream (u : FlowUpstreamCondition)
  deriving DecidableEq

/-- src/fluid/descriptor/flow.rs: `FlowSqlTransformation`. -/
structure FlowSqlTransformation where
  sql : String
  deriving DecidableEq

/-- src/fluid/descriptor/flow.rs: `FlowStepTransformation` (only `Sql`). -/
inductive FlowStepTransformation where
  | sql (t : FlowSqlTransformation)
  deriving DecidableEq

/-- src/fluid/descriptor/flow.rs: `FlowStep`. -/
structure FlowStep where
  name : String
  summary : String
  parents : List String
  timeout : String
  transformation : FlowStepTransformation
  deriving DecidableEq

/-- src/fluid/descriptor/flow.rs: `FlowDescriptor`. -/
structure FlowDescriptor where
  id : String
  name : String
  summary : String
  condition : FlowCondition
  steps : List FlowStep
  deriving DecidableEq

/-- src/provisioner/waterwheel.rs: `WaterwheelTrigger`. -/
structure WaterwheelTrigger where
  name : String
  start : String
  cron : String
  deriving DecidableEq

/-- src/provisioner/waterwheel.rs: `WaterwheelDockerTask`. -/
structure WaterwheelDockerTask where
  image : String
  args : List String
  deriving DecidableEq

/-- src/provisioner/waterwheel.rs: `WaterwheelTask`. -/
structure WaterwheelTask where
  name : String
  docker : WaterwheelDockerTask
  depends : List String
  deriving DecidableEq

/-- src/provisioner/waterwheel.rs: `WaterwheelJob`. -/
structure WaterwheelJob where
  uuid : String
  project : String
  name : String
  description : String
  paused : Bool
  triggers : List WaterwheelTrigger
  tasks : List WaterwheelTask
  deriving DecidableEq

/-- Character class the `shell_escape` crate leaves unquoted on Unix. -/
def shellEscapeAllowed (c : Char) : Bool :=
  ('a' ≤ c && c ≤ 'z') || ('A' ≤ c && c ≤ 'Z') || ('0' ≤ c && c ≤ '9') ||
    c == '-' || c == '_' || c == '=' || c == '/' || c == ',' || c == '.' || c == '+'

/-- Model of `shell_escape::escape` (Unix): a non-empty all-allowed string is
returned unchanged; otherwise the string is wrapped in single quotes, with a
single quote or bang replaced by a quoted escape. -/
def shell_escape (s : String) : String :=
  if s ≠ "" && s.data.all shellEscapeAllowed then s
  else
    "'" ++ String.mk (s.data.foldr
      (fun c acc =>
        if c == '\'' || c == '!' then '\'' :: '\\' :: c :: '\'' :: acc
        else c :: acc) []) ++ "'"

/-- src/controller/flow.rs: `PRIMORDIAL_TIME`. -/
def PRIMORDIAL_TIME : String := "2000-01-01T00:00:00Z"

/-- src/controller/flow.rs, body of the task loop in
`build_waterwheel_job_spec`: build one waterwheel task from one flow step. -/
def task_for_step (step : FlowStep) : WaterwheelTask :=
  let docker := match step.transformation with
    | .sql t =>
      { image := "bash"
        args := ["-c", "echo \"" ++ shell_escape t.sql ++ "\""] : WaterwheelDockerTask }
  let depends : List String := step.parents.map (fun x => "task/" ++ x)
  { name := step.name
    docker := docker
    depends := if depends.isEmpty then ["trigger/cron"] else depends }

/-- src/controller/flow.rs: `FlowController::build_waterwheel_job_spec`.
`waterwheel_project` is the `self.waterwheel_project` configuration field.
The error string is the message of the `bail!` for non-`Cron` conditions. -/
def build_waterwheel_job_spec (waterwheel_project : String)
    (descriptor : FlowDescriptor) : Except String WaterwheelJob :=
  match descriptor.condition with
  | .cron cron_condition =>
    .ok { uuid := descriptor.id
          project := waterwheel_project
          name := descriptor.name
          description := descriptor.summary
          paused := false
          triggers := [{ name := "cron"
                         start := PRIMORDIAL_TIME
                         cron := cron_condition.schedule }]
          tasks := descriptor.steps.map task_for_step }
  | .upstream _ => .error "unsupported trigger condition"

/-- src/controller/flow.rs: `FlowController::validate` — it simply attempts
the job-spec compilation. -/
def flow_validate (waterwheel_project : String) (descriptor : FlowDescriptor) :
    Except String Unit :=
  match build_waterwheel_job_spec waterwheel_project descriptor with
  | .ok _ => .ok ()
  | .error e => .error e

/-- src/descriptor_store.rs / src/deployment_state_store.rs: the errors a
Redis-backed store call can surface.  `nilNotString` is the failure of
decoding a Redis `Nil` reply into `String` (the typed `conn.get::<String>`
used by `list_descriptors` on a key whose value has disappeared). -/
inductive RedisErr where
  | nilNotString
  | deser (msg : String)
  | conn (msg : String)
  deriving DecidableEq

/-- src/controller/error.rs: `ControllerReconciliationError`.  The payloads
of the first two variants are kept as their display strings. -/
inductive ControllerReconciliationError where
  | provisionerError (source : String)
  | controllerError (source : String)
  | dependencyMissing (dep : String)
  deriving DecidableEq

/-- The `anyhow::Error` values that flow out of controller methods: either a
`ControllerReconciliationError` or some other propagated error. -/
inductive AnyhowErr where
  | reconciliation (e : ControllerReconciliationError)
  | redis (e : RedisErr)
  | other (msg : String)
  deriving DecidableEq

/-- Display of `ControllerReconciliationError` per its `thiserror` derive in
src/controller/error.rs. -/
def ControllerReconciliationError.display : ControllerReconciliationError → String
  | .provisionerError _ => "error from provisioner"
  | .controllerError _ => "error from controller"
  | .dependencyMissing dep => "missing dependency `" ++ dep ++ "`"

/-- Display (`to_string`) of the `anyhow::Error` seen by the intake handlers:
`anyhow` shows the outermost error's display. -/
def AnyhowErr.display : AnyhowErr → String
  | .reconciliation e => e.display
  | .redis _ => "redis error"
  | .other msg => msg

/-- An HTTP response as observed by `FlowController::reconcile`: its status
and the outcome of reading its body with `resp.text()`. -/
structure HttpResponse where
  status : Nat
  text : Except String String
  deriving DecidableEq

/-- Outcome of `http_client.post(..).json(..).send()`. -/
inductive SendResult where
  | failed (msg : String)
  | response (r : HttpResponse)
  deriving DecidableEq

/-- `reqwest::StatusCode::is_success`: 200 ..= 299. -/
def status_is_success (s : Nat) : Bool := 200 ≤ s && s ≤ 299

/-- src/controller/flow.rs: `FlowController::reconcile`.  `send` is the
workflow-engine POST, abstracted as a function of the submitted job spec. -/
def flow_reconcile (waterwheel_project : String) (descriptor : FlowDescriptor)
    (send : WaterwheelJob → SendResult) : Except AnyhowErr Unit :=
  match build_waterwheel_job_spec waterwheel_project descriptor with
  | .error e => .error (.reconciliation (.controllerError e))
  | .ok job_spec =>
    match send job_spec with
    | .failed m => .error (.reconciliation (.provisionerError m))
    | .response resp =>
      if status_is_success resp.status then .ok ()
      else
        match resp.text with
        | .error m => .error (.reconciliation (.provisionerError m))
        | .ok _resp_msg =>
          .error (.reconciliation
            (.provisionerError "error when submitting job to waterwheel"))

/-- src/provisioner/s3.rs: the service error of `create_bucket`, with the
"already owned by you" conflict distinguished as in
`is_bucket_already_owned_by_you`. -/
inductive S3CreateBucketErr where
  | bucketAlreadyOwnedByYou
  | otherErr (msg : String)
  deriving DecidableEq

/-- `CreateBucketError::is_bucket_already_owned_by_you` of the AWS SDK. -/
def S3CreateBucketErr.is_bucket_already_owned_by_you : S3CreateBucketErr → Bool
  | .bucketAlreadyOwnedByYou => true
  | .otherErr _ => false

/-- Errors surfaced by `S3Provisioner::create_bucket`. -/
inductive S3ProvisionErr where
  | createErr (e : S3CreateBucketErr)
  | tagErr (msg : String)
  deriving DecidableEq

/-- src/provisioner/s3.rs: `S3Provisioner::create_bucket`, translated
literally.  The guard in the source reads
`if let Err(e) = create_bucket_resp && e.is_bucket_already_owned_by_you()
\x7b return Err(e.into()); \x7d`,
so an `Err` falls through to the tagging call whenever the error is NOT the
already-owned conflict, and returns early exactly when it IS. -/
def create_bucket (create_bucket_resp : Except S3CreateBucketErr Unit)
    (put_bucket_tagging_resp : Except String Unit) : Except S3ProvisionErr Unit :=
  match create_bucket_resp with
  | .error e =>
    if e.is_bucket_already_owned_by_you then .error (.createErr e)
    else
      match put_bucket_tagging_resp with
      | .error m => .error (.tagErr m)
      | .ok _ => .ok ()
  | .ok _ =>
    match put_bucket_tagging_resp with
    | .error m => .error (.tagErr m)
    | .ok _ => .ok ()

/-- src/descriptor_store.rs: `RedisDescriptorStore::list_descriptors`,
after the `conn.keys("descriptor/<kind>/*")` enumeration returned `keys`.
`value_at` is the store contents at fetch time; `from_str` is
`serde_json::from_str` for the descriptor type.  A key whose value has
disappeared makes the typed `conn.get::<String>` fail (Redis `Nil` does not
decode into `String`), and the `?` aborts the whole listing. -/
def list_descriptors {T : Type} (from_str : String → Except String T)
    (value_at : String → Option String) :
    List String → Except RedisErr (List T)
  | [] => .ok []
  | d :: rest =>
    match value_at d with
    | none => .error .nilNotString
    | some s =>
      match from_str s with
      | .error m => .error (.deser m)
      | .ok t =>
        match list_descriptors from_str value_at rest with
        | .error e => .error e
        | .ok ts => .ok (t :: ts)

/-- src/deployment_state_store.rs: `DeploymentState`. -/
inductive DeploymentState where
  | pending
  | deploying
  | succeeded
  | failed
  | unknown
  deriving DecidableEq

/-- src/deployment_state_store.rs: `DeploymentInfo`. -/
structure DeploymentInfo where
  state : DeploymentState
  description : Option String
  deriving DecidableEq

/-- Observable outcome of one intake handler call: HTTP status, response
body, and the `set_state` writes issued for the payload's id, in order. -/
structure HandlerResponse where
  status : Nat
  body : String
  state_writes : List DeploymentInfo
  deriving DecidableEq

/-- src/main.rs: common body of `handle_db_reconcile`, `handle_table_reconcile`
and `handle_flow_reconcile` (the three are identical apart from the descriptor
type and controller).  Each remote call is an outcome parameter.  Note the
source calls `store_descriptor(..).await;` and `set_state(..).await;` with no
`?`: their `Result`s are discarded, which this translation mirrors by never
inspecting `store_descriptor_result`, `set_pending_result` or
`set_final_result`. -/
def handle_reconcile (validate_result : Except String Unit)
    (store_descriptor_result : Except RedisErr Unit)
    (set_pending_result : Except RedisErr Unit)
    (reconcile_result : Except AnyhowErr Unit)
    (set_final_result : Except RedisErr Unit) : HandlerResponse :=
  match validate_result with
  | .error e => { status := 400, body := "bad request: " ++ e, state_writes := [] }
  | .ok _ =>
    match reconcile_result with
    | .error e =>
      { status := 500
        body := "error " ++ e.display
        state_writes := [{ state := .pending, description := none },
                         { state := .failed, description := some e.display }] }
    | .ok _ =>
      { status := 202
        body := ""
        state_writes := [{ state := .pending, description := none },
                         { state := .succeeded, description := none }] }

/-- src/main.rs: `handle_db_reconcile`. -/
def handle_db_reconcile := handle_reconcile

/-- src/main.rs: `handle_table_reconcile`. -/
def handle_table_reconcile := handle_reconcile

/-- src/main.rs: `handle_flow_reconcile`. -/
def handle_flow_reconcile := handle_reconcile

/-- Model of Rust `str::replace("_", "-")`: the pattern is a single
character, so the replacement is character-wise. -/
def str_replace_underscore_hyphen (s : String) : String :=
  String.mk (s.data.map (fun c => if c == '_' then '-' else c))

namespace DatabaseController

/-- src/controller/database.rs: `DatabaseController::glue_name_for`. -/
def glue_name_for (descriptor : DatabaseDescriptor) : String :=
  "zone_" ++ descriptor.name

/-- src/controller/database.rs: `DatabaseController::s3_name_for`. -/
def s3_name_for (descriptor : DatabaseDescriptor) : String :=
  "cz-vaporeon-db-" ++ str_replace_underscore_hyphen descriptor.name

end DatabaseController

namespace TableController

/-- src/controller/table.rs: `TableController::glue_name_for`. -/
def glue_name_for (descriptor : DatabaseDescriptor) : String :=
  "zone_" ++ descriptor.name

/-- src/controller/table.rs: `TableController::s3_name_for`. -/
def s3_name_for (descriptor : DatabaseDescriptor) : String :=
  "cz-vaporeon-db-" ++ str_replace_underscore_hyphen descriptor.name

end TableController

/-- src/controller/table.rs: `Regex::is_match` for the anchored pattern
`^[a-z0-9_]` of both `VALIDATION_REGEX_TABLE_NAME` and
`VALIDATION_REGEX_COLUMN_NAME` — the string matches iff its first character
is in the class (the pattern has no `+` and no `$`). -/
def matches_head_lower_alnum_us (s : String) : Bool :=
  match s.data with
  | [] => false
  | c :: _ => ('a' ≤ c && c ≤ 'z') || ('0' ≤ c && c ≤ '9') || c == '_'

/-- src/controller/table.rs: `SUPPORTED_COL_TYPES`. -/
def SUPPORTED_COL_TYPES : List TableColumnType :=
  [.int, .long, .float, .double, .boolean, .string, .date, .timestamp]

/-- Structured stand-in for the `ensure!` messages of
`TableController::validate` (the claims depend only on which check fails). -/
inductive TableValidateErr where
  | invalidTableName (name : String)
  | invalidColumnName (name : String)
  | unsupportedColumnType (kind : TableColumnType)
  deriving DecidableEq

/-- src/controller/table.rs, `TableController::validate`: the per-column
loop (name regex, then supported-type membership, in source order). -/
def validate_columns : List TableColumnAttribute → Except TableValidateErr Unit
  | [] => .ok ()
  | col_desc :: rest =>
    if !matches_head_lower_alnum_us col_desc.name then
      .error (.invalidColumnName col_desc.name)
    else if !(SUPPORTED_COL_TYPES.contains col_desc.codec.kind) then
      .error (.unsupportedColumnType col_desc.codec.kind)
    else validate_columns rest

/-- src/controller/table.rs: `TableController::validate`. -/
def table_validate (descriptor : TableDescriptor) : Except TableValidateErr Unit :=
  if !matches_head_lower_alnum_us descriptor.name then
    .error (.invalidTableName descriptor.name)
  else validate_columns descriptor.columns

/-- src/controller/table.rs: `TableController::reconcile`.  `get_descriptor`
is the Descriptor Store lookup (id, kind) at call time;
`reconcile_glue_table` is the Glue sub-reconciliation, abstracted as a
function of the database descriptor that was found. -/
def table_reconcile (descriptor : TableDescriptor)
    (get_descriptor : String → String → Except RedisErr (Option DatabaseDescriptor))
    (reconcile_glue_table : DatabaseDescriptor → Except String Unit) :
    Except AnyhowErr Unit :=
  match get_descriptor descriptor.database "database" with
  | .error e => .error (.redis e)
  | .ok none => .error (.reconciliation (.dependencyMissing descriptor.database))
  | .ok (some db_descriptor) =>
    match reconcile_glue_table db_descriptor with
    | .error m => .error (.reconciliation (.provisionerError m))
    | .ok _ => .ok ()

/-- src/descriptor_event_watcher.rs: `DescriptorEvent` (payload of an
enveloped event; `descriptor_uri` keeps its serde-renamed source name). -/
structure DescriptorEvent where
  type : String
  descriptorURI : String
  kind : String
  revision : Nat
  deriving DecidableEq

/-- src/descriptor_event_watcher.rs: `EnvelopedEvent`. -/
structure EnvelopedEvent where
  event_id : String
  type : String
  payload : DescriptorEvent
  resource : Option String
  time : Option String
  deriving DecidableEq

/-- An SQS message as read by `ingest_set`: receipt handle, message id and
body are each optional in the SDK shape. -/
structure SqsMessage where
  receipt_handle : Option String
  message_id : Option String
  body : Option String
  deriving DecidableEq

/-- The two error exits of the message loop in `ingest_set`: a body that
`serde_json::from_str` rejects, or a failing `load_upstream_descriptor`. -/
inductive IngestErr where
  | parseErr (msg : String)
  | loadErr (msg : String)
  deriving DecidableEq

/-- src/descriptor_event_watcher.rs: the kind dispatch inside the message
loop — `"database" | "flow" | "table"` call `load_upstream_descriptor::<T>`
for the matching type (abstracted as `load kind uri`); any other kind is
logged and skipped (`continue`), yielding `none` here. -/
def dispatch_event_kind (load : String → String → Except String Unit)
    (event : EnvelopedEvent) : Option (Except String Unit) :=
  match event.payload.kind with
  | "database" => some (load "database" event.payload.descriptorURI)
  | "flow" => some (load "flow" event.payload.descriptorURI)
  | "table" => some (load "table" event.payload.descriptorURI)
  | _ => none

/-- src/descriptor_event_watcher.rs: the message loop of
`DescriptorEventWatcher::ingest_set`, carrying the `enumerate` index `i` and
the `deletions` vector.  For each message: a present receipt handle is
appended to `deletions` first (message id falling back to the index); then a
present body is parsed — a parse failure propagates through `?` immediately,
as does a failing load.  On normal exit the accumulated deletions are
returned for the final batch-delete request.  `deletion_entries` is the
receipt-handle push at the top of the loop body. -/
def deletion_entries (msg : SqsMessage) (i : Nat)
    (deletions : List (String × String)) : List (String × String) :=
  match msg.receipt_handle with
  | some receipt_handle =>
    let msg_id :=
      match msg.message_id with
      | some x => x
      | none => toString i
    deletions ++ [(receipt_handle, msg_id)]
  | none => deletions

/-- See the comment on `deletion_entries` just above: this is the message
loop of `ingest_set`. -/
def ingest_msgs (from_str : String → Except String EnvelopedEvent)
    (load : String → String → Except String Unit) :
    List SqsMessage → Nat → List (String × String) →
    Except IngestErr (List (String × String))
  | [], _, deletions => .ok deletions
  | msg :: rest, i, deletions =>
    let deletions := deletion_entries msg i deletions
    match msg.body with
    | none => ingest_msgs from_str load rest (i + 1) deletions
    | some event_str =>
      match from_str event_str with
      | .error m => .error (.parseErr m)
      | .ok event =>
        match dispatch_event_kind load event with
        | some (.error m) => .error (.loadErr m)
        | some (.ok _) => ingest_msgs from_str load rest (i + 1) deletions
        | none => ingest_msgs from_str load rest (i + 1) deletions

/-- src/descriptor_event_watcher.rs: `DescriptorEventWatcher::ingest_set`
over one received batch `msgs`.  The returned list is the entry set of the
batch-delete request issued at the end of the iteration (empty means the
request is skipped); an `error` result means the iteration aborted through
`?` before any deletion was requested.  The transport outcome of the delete
request itself is not modelled — it does not change which entries the
request contains. -/
def ingest_set (from_str : String → Except String EnvelopedEvent)
    (load : String → String → Except String Unit) (msgs : List SqsMessage) :
    Except IngestErr (List (String × String)) :=
  ingest_msgs from_str load msgs 0 []

/-- Decidable success test for `Except`. -/
def exceptIsOk {ε α : Type} : Except ε α → Bool
  | .ok _ => true
  | .error _ => false

/-- Helper for substring talk: `lstarts l p` holds when the char list `p`
is an initial segment of `l`. -/
def lstarts : List Char → List Char → Bool
  | _, [] => true
  | [], _ :: _ => false
  | b :: bs, a :: as => a == b && lstarts bs as

/-- Helper: `lhas p l` holds when `p` occurs contiguously inside `l`. -/
def lhas (p : List Char) : List Char → Bool
  | [] => lstarts [] p
  | b :: bs => lstarts (b :: bs) p || lhas p bs

/-- String containment: `str_contains hay pat` holds when `pat` occurs as a
contiguous substring of `hay`. -/
def str_contains (hay pat : String) : Bool := lhas pat.data hay.data

/-- Concrete flow fixture (scenario S5 of the spec): a cron flow with one
root step and one dependent step. -/
def sample_flow : FlowDescriptor :=
  { id := "f1"
    name := "daily"
    summary := "s"
    condition := .cron { schedule := "0 0 * * *" }
    steps := [
      { name := "a"
        summary := ""
        parents := []
        timeout := "10m"
        transformation := .sql { sql := "SELECT 1" } },
      { name := "b"
        summary := ""
        parents := ["a"]
        timeout := "10m"
        transformation := .sql { sql := "SELECT 2" } } ] }

/-- Concrete enveloped event fixture (scenario S6 of the spec). -/
def sample_event : EnvelopedEvent :=
  { event_id := "e1"
    type := "created"
    payload := { type := "created"
                 descriptorURI := "http://x/y"
                 kind := "database"
                 revision := 1 }
    resource := none
    time := none }

/-- Concrete parse fixture: the body "good" parses to `sample_event`, any
other body is rejected the way `serde_json::from_str` rejects bad JSON. -/
def sample_parse : String → Except String EnvelopedEvent := fun s =>
  if s = "good" then .ok sample_event else .error "expected value at line 1"

/-- Concrete load fixture: every descriptor fetch-and-store succeeds. -/
def sample_load : String → String → Except String Unit := fun _ _ => .ok ()

/-- The job spec that `build_waterwheel_job_spec` compiles `sample_flow` to
under project "basin" (note `shell_escape` wraps the SQL in single quotes). -/
def sample_job : WaterwheelJob :=
  { uuid := "f1"
    project := "basin"
    name := "daily"
    description := "s"
    paused := false
    triggers := [{ name := "cron", start := "2000-01-01T00:00:00Z", cron := "0 0 * * *" }]
    tasks := [
      { name := "a"
        docker := { image := "bash", args := ["-c", "echo \"'SELECT 1'\""] }
        depends := ["trigger/cron"] },
      { name := "b"
        docker := { image := "bash", args := ["-c", "echo \"'SELECT 2'\""] }
        depends := ["task/a"] } ] }

/- ------------------------------------------------------------------ -/
/- Theorems.                                                          -/
/- ------------------------------------------------------------------ -/

/-- C1: the spec states that `S3Provisioner::create_bucket` treats the
backend's "already owned by you" conflict as a non-error success and returns
every other create error as an error.  The code does the exact opposite: the
guard `if let Err(e) = create_bucket_resp && e.is_bucket_already_owned_by_you()`
returns `Err` precisely on the benign already-owned conflict, and every other
create error falls through to the tagging call and is swallowed (returning
`Ok` when tagging succeeds). -/
theorem create_bucket_conflict_handling_inverted :
    create_bucket (.error .bucketAlreadyOwnedByYou) (.ok ())
        = .error (.createErr .bucketAlreadyOwnedByYou)
    ∧ create_bucket (.error (.otherErr "AccessDenied")) (.ok ()) = .ok () :=
  ⟨rfl, rfl⟩

/-- C2 counterexample: a failing Descriptor Store write (db handler) and a
failing Deployment-State Pending write (table handler) still yield `202`,
not `500` — the handlers discard those `Result`s. -/
theorem intake_ignores_store_failure_counterexample :
    (handle_db_reconcile (Except.ok ())
        (Except.error (RedisErr.conn "connection refused"))
        (Except.ok ()) (Except.ok ()) (Except.ok ())).status = 202
    ∧ (handle_db_reconcile (Except.ok ())
        (Except.error (RedisErr.conn "connection refused"))
        (Except.ok ()) (Except.ok ()) (Except.ok ())).status ≠ 500
    ∧ (handle_table_reconcile (Except.ok ()) (Except.ok ())
        (Except.error (RedisErr.conn "connection refused"))
        (Except.ok ()) (Except.ok ())).status = 202 :=
  ⟨rfl, by decide, rfl⟩

/-- C2 (amended): the intake handlers never inspect the outcomes of the
Descriptor Store write or of the Deployment-State writes — the response
status is the same as if those writes had succeeded, and it is `500` exactly
when validation passed and the reconcile failed. -/
theorem intake_status_independent_of_store_writes
    (validate_result : Except String Unit)
    (store_descriptor_result set_pending_result set_final_result : Except RedisErr Unit)
    (reconcile_result : Except AnyhowErr Unit) :
    ((handle_db_reconcile validate_result store_descriptor_result
          set_pending_result reconcile_result set_final_result).status
      = (handle_db_reconcile validate_result (Except.ok ()) (Except.ok ())
          reconcile_result (Except.ok ())).status)
    ∧ ((handle_table_reconcile validate_result store_descriptor_result
          set_pending_result reconcile_result set_final_result).status
      = (handle_table_reconcile validate_result (Except.ok ()) (Except.ok ())
          reconcile_result (Except.ok ())).status)
    ∧ ((handle_db_reconcile validate_result store_descriptor_result
          set_pending_result reconcile_result set_final_result).status = 500
      ↔ exceptIsOk validate_result = true ∧ exceptIsOk reconcile_result = false) := by
  cases validate_result <;> cases reconcile_result <;>
    simp [handle_db_reconcile, handle_table_reconcile, handle_reconcile, exceptIsOk]

/-- C3 counterexample: with two enumerated keys of which the second has no
value at fetch time, `list_descriptors` returns an error instead of skipping
the key and returning the first descriptor. -/
theorem list_descriptors_toctou_counterexample :
    @list_descriptors String (fun s => Except.ok s)
        (fun k => if k = "descriptor/database/a" then some "da" else none)
        ["descriptor/database/a", "descriptor/database/b"]
      = .error .nilNotString
    ∧ @list_descriptors String (fun s => Except.ok s)
        (fun k => if k = "descriptor/database/a" then some "da" else none)
        ["descriptor/database/a", "descriptor/database/b"]
      ≠ .ok ["da"] := by
  exact ⟨by decide, by decide⟩

/-- C3 (amended): a key whose value has disappeared between enumeration and
fetch is not skipped — it makes the whole `list_descriptors` call fail (the
typed Redis get of a vanished key errors and `?` aborts the loop). -/
theorem list_descriptors_fails_when_value_missing {T : Type}
    (from_str : String → Except String T) (value_at : String → Option String)
    (keys : List String) (k : String) (hmem : k ∈ keys)
    (hnone : value_at k = none) :
    exceptIsOk (list_descriptors from_str value_at keys) = false := by
  induction keys with
  | nil => cases hmem
  | cons d rest ih =>
    rcases List.mem_cons.mp hmem with hk | hk
    · subst hk
      simp [list_descriptors, hnone, exceptIsOk]
    · cases hv : value_at d with
      | none => simp [list_descriptors, hv, exceptIsOk]
      | some s =>
        cases hp : from_str s with
        | error m => simp [list_descriptors, hv, hp, exceptIsOk]
        | ok t =>
          have hih := ih hk
          cases hrec : list_descriptors from_str value_at rest with
          | error e => simp [list_descriptors, hv, hp, hrec, exceptIsOk]
          | ok ts =>
            rw [hrec] at hih
            simp [exceptIsOk] at hih

/-- Witness for the C3 theorem at the concrete input of the counterexample. -/
theorem list_descriptors_fails_when_value_missing_witness :
    exceptIsOk (@list_descriptors String (fun s => Except.ok s)
        (fun k => if k = "descriptor/database/a" then some "da" else none)
        ["descriptor/database/a", "descriptor/database/b"]) = false :=
  list_descriptors_fails_when_value_missing (fun s => Except.ok s)
    (fun k => if k = "descriptor/database/a" then some "da" else none)
    ["descriptor/database/a", "descriptor/database/b"]
    "descriptor/database/b" (by decide) (by decide)

/-- C4 counterexample: the workflow engine answers 500 with body "boom"; the
reconcile returns a ProvisionerError, but the Failed info recorded by the
intake handler carries the fixed display "error from provisioner", which
does not contain the response body (it is only logged). -/
theorem flow_failure_description_counterexample :
    flow_reconcile "basin" sample_flow
        (fun _ => SendResult.response { status := 500, text := Except.ok "boom" })
      = .error (.reconciliation
          (.provisionerError "error when submitting job to waterwheel"))
    ∧ (handle_flow_reconcile (Except.ok ()) (Except.ok ()) (Except.ok ())
        (flow_reconcile "basin" sample_flow
          (fun _ => SendResult.response { status := 500, text := Except.ok "boom" }))
        (Except.ok ())).state_writes
      = [{ state := .pending, description := none },
         { state := .failed, description := some "error from provisioner" }]
    ∧ str_contains "error from provisioner" "boom" = false :=
  ⟨by decide, by decide, by decide⟩

/-- C4 (amended): on every non-2xx workflow-engine response whose body can be
read, `reconcile` returns a `ProvisionerError` carrying the fixed message
"error when submitting job to waterwheel" (the body is only logged), and the
Failed info the intake path records has description "error from provisioner"
(the error's display), not the response body. -/
theorem flow_failure_description_generic
    (waterwheel_project : String) (descriptor : FlowDescriptor)
    (send : WaterwheelJob → SendResult) (job : WaterwheelJob)
    (resp : HttpResponse) (body : String)
    (store_result set_pending_result set_final_result : Except RedisErr Unit)
    (hbuild : build_waterwheel_job_spec waterwheel_project descriptor = .ok job)
    (hsend : send job = .response resp)
    (hstatus : status_is_success resp.status = false)
    (htext : resp.text = .ok body) :
    flow_reconcile waterwheel_project descriptor send
      = .error (.reconciliation
          (.provisionerError "error when submitting job to waterwheel"))
    ∧ (handle_flow_reconcile (Except.ok ()) store_result set_pending_result
        (flow_reconcile waterwheel_project descriptor send)
        set_final_result).state_writes
      = [{ state := .pending, description := none },
         { state := .failed, description := some "error from provisioner" }] := by
  have h1 : flow_reconcile waterwheel_project descriptor send
      = .error (.reconciliation
          (.provisionerError "error when submitting job to waterwheel")) := by
    simp [flow_reconcile, hbuild, hsend, hstatus, htext]
  refine ⟨h1, ?_⟩
  rw [h1]
  simp [handle_flow_reconcile, handle_reconcile, AnyhowErr.display,
    ControllerReconciliationError.display]

/-- Witness for the C4 theorem at the concrete input of the counterexample. -/
theorem flow_failure_description_generic_witness :
    flow_reconcile "basin" sample_flow
        (fun _ => SendResult.response { status := 500, text := Except.ok "boom" })
      = .error (.reconciliation
          (.provisionerError "error when submitting job to waterwheel"))
    ∧ (handle_flow_reconcile (Except.ok ()) (Except.ok ()) (Except.ok ())
        (flow_reconcile "basin" sample_flow
          (fun _ => SendResult.response { status := 500, text := Except.ok "boom" }))
        (Except.ok ())).state_writes
      = [{ state := .pending, description := none },
         { state := .failed, description := some "error from provisioner" }] :=
  flow_failure_description_generic "basin" sample_flow
    (fun _ => SendResult.response { status := 500, text := Except.ok "boom" })
    sample_job { status := 500, text := Except.ok "boom" } "boom"
    (Except.ok ()) (Except.ok ()) (Except.ok ())
    (by decide) rfl (by decide) rfl

/-- C5: `TableController::reconcile` returns `DependencyMissing` carrying the
table's `database` id exactly when the Descriptor Store `get` for that id
under kind "database" returns empty at call time; a store error propagates
as a different error and a found dependency leads to the Glue path. -/
theorem table_reconcile_dependency_missing_iff (descriptor : TableDescriptor)
    (get_descriptor : String → String → Except RedisErr (Option DatabaseDescriptor))
    (reconcile_glue_table : DatabaseDescriptor → Except String Unit) :
    table_reconcile descriptor get_descriptor reconcile_glue_table
        = .error (.reconciliation (.dependencyMissing descriptor.database))
      ↔ get_descriptor descriptor.database "database" = .ok none := by
  cases hg : get_descriptor descriptor.database "database" with
  | error e => simp [table_reconcile, hg]
  | ok o =>
    cases o with
    | none => simp [table_reconcile, hg]
    | some db =>
      cases hr : reconcile_glue_table db <;> simp [table_reconcile, hg, hr]

/-- C6: for every flow descriptor whose condition is `Cron`, job-spec
compilation succeeds and yields the single cron trigger started at the
primordial time, one task per step (with the step's name), with root steps
depending on the trigger and the others on their parents' tasks, and the
job's uuid equal to the descriptor's id.  (Every step transformation is
`Sql` by the type itself, the only variant.) -/
theorem build_job_spec_cron_total (waterwheel_project : String)
    (descriptor : FlowDescriptor) (cron_condition : FlowCronCondition)
    (hcond : descriptor.condition = .cron cron_condition) :
    ∃ job, build_waterwheel_job_spec waterwheel_project descriptor = .ok job
      ∧ job.uuid = descriptor.id
      ∧ job.triggers = [{ name := "cron", start := "2000-01-01T00:00:00Z",
                          cron := cron_condition.schedule }]
      ∧ job.tasks.length = descriptor.steps.length
      ∧ ∀ (i : Nat) (step : FlowStep), descriptor.steps[i]? = some step →
          ∃ task : WaterwheelTask, job.tasks[i]? = some task
            ∧ task.name = step.name
            ∧ task.depends = (if step.parents = [] then ["trigger/cron"]
                else step.parents.map (fun p => "task/" ++ p)) := by
  refine ⟨{ uuid := descriptor.id
            project := waterwheel_project
            name := descriptor.name
            description := descriptor.summary
            paused := false
            triggers := [{ name := "cron", start := PRIMORDIAL_TIME,
                           cron := cron_condition.schedule }]
            tasks := descriptor.steps.map task_for_step },
          by simp [build_waterwheel_job_spec, hcond], rfl, rfl, by simp, ?_⟩
  intro i step hstep
  refine ⟨task_for_step step, ?_, rfl, ?_⟩
  · simp [List.getElem?_map, hstep]
  · cases hp : step.parents with
    | nil => simp [task_for_step, hp]
    | cons p ps => simp [task_for_step, hp]

/-- Witness for the C6 theorem at `sample_flow` (spec scenario S5). -/
theorem build_job_spec_cron_total_witness :
    ∃ job, build_waterwheel_job_spec "basin" sample_flow = .ok job
      ∧ job.uuid = sample_flow.id
      ∧ job.triggers = [{ name := "cron", start := "2000-01-01T00:00:00Z",
                          cron := "0 0 * * *" }]
      ∧ job.tasks.length = sample_flow.steps.length
      ∧ ∀ (i : Nat) (step : FlowStep), sample_flow.steps[i]? = some step →
          ∃ task : WaterwheelTask, job.tasks[i]? = some task
            ∧ task.name = step.name
            ∧ task.depends = (if step.parents = [] then ["trigger/cron"]
                else step.parents.map (fun p => "task/" ++ p)) :=
  build_job_spec_cron_total "basin" sample_flow { schedule := "0 0 * * *" } rfl

/-- C7: the derived remote names are deterministic — bucket name
`cz-vaporeon-db-` + name with every underscore replaced by a hyphen, catalog
name `zone_` + name — and `TableController` derives exactly the same two
names from the referenced database descriptor as `DatabaseController`. -/
theorem remote_naming_deterministic (d : DatabaseDescriptor) :
    DatabaseController.s3_name_for d
        = "cz-vaporeon-db-" ++ str_replace_underscore_hyphen d.name
    ∧ DatabaseController.glue_name_for d = "zone_" ++ d.name
    ∧ (str_replace_underscore_hyphen d.name).data
        = d.name.data.map (fun c => if c = '_' then '-' else c)
    ∧ TableController.s3_name_for d = DatabaseController.s3_name_for d
    ∧ TableController.glue_name_for d = DatabaseController.glue_name_for d := by
  refine ⟨rfl, rfl, ?_, rfl, rfl⟩
  simp [str_replace_underscore_hyphen]

/-- Helper: success of the per-column validation loop is exactly the
per-column conjunction of the name regex and the supported-type check. -/
theorem validate_columns_ok_iff (cols : List TableColumnAttribute) :
    exceptIsOk (validate_columns cols) = true
      ↔ ∀ col ∈ cols, matches_head_lower_alnum_us col.name = true
          ∧ col.codec.kind ∈ SUPPORTED_COL_TYPES := by
  induction cols with
  | nil => simp [validate_columns, exceptIsOk]
  | cons c rest ih =>
    cases hm : matches_head_lower_alnum_us c.name with
    | false =>
      simp [validate_columns, hm, exceptIsOk, List.forall_mem_cons]
    | true =>
      cases hc : SUPPORTED_COL_TYPES.contains c.codec.kind with
      | false =>
        have hc2 : List.elem c.codec.kind SUPPORTED_COL_TYPES = false := by
          simpa [List.contains] using hc
        have hcm : c.codec.kind ∉ SUPPORTED_COL_TYPES := by
          intro hmem
          rw [List.elem_iff.mpr hmem] at hc2
          cases hc2
        simp [validate_columns, hm, hc, exceptIsOk, List.forall_mem_cons, hcm]
      | true =>
        have hc2 : List.elem c.codec.kind SUPPORTED_COL_TYPES = true := by
          simpa [List.contains] using hc
        have hcm : c.codec.kind ∈ SUPPORTED_COL_TYPES := List.elem_iff.mp hc2
        simp [validate_columns, hm, hc, ih, List.forall_mem_cons, hcm]

/-- C8: `TableController::validate` succeeds exactly when the table name
matches `^[a-z0-9_]` and every column's name matches `^[a-z0-9_]` and every
column's codec kind is in the supported set; in particular any column of
kind `Complex` makes validation fail. -/
theorem table_validate_characterisation (descriptor : TableDescriptor) :
    (exceptIsOk (table_validate descriptor) = true
      ↔ matches_head_lower_alnum_us descriptor.name = true
        ∧ ∀ col ∈ descriptor.columns,
            matches_head_lower_alnum_us col.name = true
            ∧ col.codec.kind ∈ SUPPORTED_COL_TYPES)
    ∧ (∀ col ∈ descriptor.columns, col.codec.kind = .complex →
        exceptIsOk (table_validate descriptor) = false) := by
  have hiff : exceptIsOk (table_validate descriptor) = true
      ↔ matches_head_lower_alnum_us descriptor.name = true
        ∧ ∀ col ∈ descriptor.columns,
            matches_head_lower_alnum_us col.name = true
            ∧ col.codec.kind ∈ SUPPORTED_COL_TYPES := by
    cases hm : matches_head_lower_alnum_us descriptor.name with
    | false => simp [table_validate, hm, exceptIsOk]
    | true => simp [table_validate, hm, validate_columns_ok_iff]
  refine ⟨hiff, ?_⟩
  intro col hcol hk
  cases hb : exceptIsOk (table_validate descriptor) with
  | false => rfl
  | true =>
    obtain ⟨-, hall⟩ := hiff.mp hb
    obtain ⟨-, hmem⟩ := hall col hcol
    rw [hk] at hmem
    exact absurd hmem (by decide)

/-- C9 counterexample: in a batch of two messages where the first parses and
processes successfully and the second has an unparseable body, the iteration
aborts with an error, so no batch deletion is performed at all — the first
(parsed and processed) message is not deleted in that iteration. -/
theorem ingest_set_abort_counterexample :
    ingest_set sample_parse sample_load
        [{ receipt_handle := some "rh1", message_id := some "m1", body := some "good" },
         { receipt_handle := some "rh2", message_id := some "m2", body := some "bad" }]
      = .error (.parseErr "expected value at line 1")
    ∧ sample_parse "good" = .ok sample_event
    ∧ sample_load "database" sample_event.payload.descriptorURI = .ok () :=
  ⟨by decide, by decide, rfl⟩

/-- Helper: if the message loop finishes without error, the accumulated
entries survive into the result and every message bearing a receipt handle
contributes an entry with that handle. -/
theorem ingest_msgs_ok_mem (from_str : String → Except String EnvelopedEvent)
    (load : String → String → Except String Unit) :
    ∀ (msgs : List SqsMessage) (i : Nat) (acc dels : List (String × String)),
      ingest_msgs from_str load msgs i acc = .ok dels →
      (∀ x ∈ acc, x ∈ dels)
      ∧ ∀ msg ∈ msgs, ∀ rh, msg.receipt_handle = some rh →
          ∃ mid, (rh, mid) ∈ dels := by
  intro msgs
  induction msgs with
  | nil =>
    intro i acc dels h
    simp [ingest_msgs] at h
    subst h
    exact ⟨fun x hx => hx, by simp⟩
  | cons msg rest ih =>
    intro i acc dels h
    simp only [ingest_msgs] at h
    have hstep : ingest_msgs from_str load rest (i + 1)
        (deletion_entries msg i acc) = .ok dels := by
      cases hb : msg.body with
      | none => simpa [hb] using h
      | some event_str =>
        simp only [hb] at h
        cases hp : from_str event_str with
        | error m =>
          simp only [hp] at h
          cases h
        | ok event =>
          simp only [hp] at h
          cases hd : dispatch_event_kind load event with
          | none => simpa [hd] using h
          | some r =>
            cases r with
            | error m =>
              simp only [hd] at h
              cases h
            | ok u =>
              simp only [hd] at h
              simpa using h
    obtain ⟨hsub, hrest⟩ := ih (i + 1) (deletion_entries msg i acc) dels hstep
    have hsub0 : ∀ x ∈ acc, x ∈ dels := by
      intro x hx
      apply hsub
      unfold deletion_entries
      cases msg.receipt_handle with
      | none => exact hx
      | some receipt_handle => exact List.mem_append.mpr (Or.inl hx)
    refine ⟨hsub0, ?_⟩
    intro m hmmem rh hrh
    rcases List.mem_cons.mp hmmem with hm | hm
    · subst hm
      refine ⟨(match m.message_id with | some x => x | none => toString i), ?_⟩
      apply hsub
      unfold deletion_entries
      rw [hrh]
      exact List.mem_append.mpr (Or.inr (by simp))
    · exact hrest m hm rh hrh

/-- C9 (amended): only in an iteration that completes without error is the
batch deletion performed, and there it includes an entry for every received
message that bears a receipt handle (parsed or not); a parse or processing
failure aborts the iteration before the deletion request, so nothing is
deleted in that iteration. -/
theorem ingest_ok_deletes_every_receipt
    (from_str : String → Except String EnvelopedEvent)
    (load : String → String → Except String Unit)
    (msgs : List SqsMessage) (dels : List (String × String))
    (hok : ingest_set from_str load msgs = .ok dels)
    (msg : SqsMessage) (hmem : msg ∈ msgs) (rh : String)
    (hrh : msg.receipt_handle = some rh) :
    ∃ mid, (rh, mid) ∈ dels :=
  (ingest_msgs_ok_mem from_str load msgs 0 [] dels hok).2 msg hmem rh hrh

/-- Witness for the C9 theorem: a one-message batch that processes cleanly
has its receipt handle in the performed batch deletion. -/
theorem ingest_ok_deletes_every_receipt_witness :
    ∃ mid, ("rh1", mid) ∈ [("rh1", "m1")] :=
  ingest_ok_deletes_every_receipt sample_parse sample_load
    [{ receipt_handle := some "rh1", message_id := some "m1", body := some "good" }]
    [("rh1", "m1")] (by decide)
    { receipt_handle := some "rh1", message_id := some "m1", body := some "good" }
    (by decide) "rh1" rfl

/-- Helper: once compilation has succeeded, `FlowController::reconcile` can
only return a provisioner error or success, never a `ControllerError`. -/
theorem flow_reconcile_no_controller_error_aux (waterwheel_project : String)
    (descriptor : FlowDescriptor) (send : WaterwheelJob → SendResult)
    (job : WaterwheelJob) (e : String)
    (hb : build_waterwheel_job_spec waterwheel_project descriptor = .ok job) :
    flow_reconcile waterwheel_project descriptor send
      ≠ .error (.reconciliation (.controllerError e)) := by
  cases hs : send job with
  | failed m => simp [flow_reconcile, hb, hs]
  | response r =>
    cases hst : status_is_success r.status with
    | true => simp [flow_reconcile, hb, hs, hst]
    | false =>
      cases ht : r.text with
      | error m => simp [flow_reconcile, hb, hs, hst, ht]
      | ok b => simp [flow_reconcile, hb, hs, hst, ht]

/-- C10: `FlowController::validate` succeeds exactly when
`build_waterwheel_job_spec` does (validate simply runs the compilation), the
compilation's success is unaffected by the flow's `name`, and once
validation has passed the `ControllerError` branch of `reconcile` is
unreachable. -/
theorem flow_validate_iff_build (waterwheel_project other_name : String)
    (descriptor : FlowDescriptor) (send : WaterwheelJob → SendResult)
    (e : String) :
    (exceptIsOk (flow_validate waterwheel_project descriptor)
        = exceptIsOk (build_waterwheel_job_spec waterwheel_project descriptor))
    ∧ (exceptIsOk (build_waterwheel_job_spec waterwheel_project
          { descriptor with name := other_name })
        = exceptIsOk (build_waterwheel_job_spec waterwheel_project descriptor))
    ∧ (exceptIsOk (flow_validate waterwheel_project descriptor) = true →
        flow_reconcile waterwheel_project descriptor send
          ≠ .error (.reconciliation (.controllerError e))) := by
  obtain ⟨did, dname, dsum, dcond, dsteps⟩ := descriptor
  cases dcond with
  | cron c =>
    refine ⟨?_, ?_, ?_⟩
    · simp [flow_validate, build_waterwheel_job_spec, exceptIsOk]
    · simp [build_waterwheel_job_spec, exceptIsOk]
    · intro _
      exact flow_reconcile_no_controller_error_aux waterwheel_project _ send _ e rfl
  | upstream u =>
    refine ⟨?_, ?_, ?_⟩
    · simp [flow_validate, build_waterwheel_job_spec, exceptIsOk]
    · simp [build_waterwheel_job_spec, exceptIsOk]
    · intro hval
      simp [flow_validate, build_waterwheel_job_spec, exceptIsOk] at hval

end Basin
